import Mathlib

/-!
Verification of `ScreenTimeRewardsProject/generate_icons.py`, a script that
resizes a master icon image into a fixed list of 18 derivative sizes via the
external `sips` tool and writes an Xcode `Contents.json` manifest.

The script is embedded shallowly:
* the external `sips` invocation is modelled by an environment
  `outcomes : Nat → SipsOutcome` giving the outcome of the k-th `subprocess.run`
  call of the run (call 0 is the in-place master normalization, calls 1..18 are
  the per-specification resizes);
* side effects (prints, file writes, the manifest write) are collected in a
  result record;
* a Python exception that escapes `generate_icons` is modelled by `Except.error`;
* the numbers of the script (Python ints, and the single float `83.5`) are
  modelled exactly by `PyNum`, the value counted in half-units together with an
  int/float tag — every numeric value the script manipulates is a non-negative
  multiple of 1/2, so this representation is lossless and executable.
-/

/-- Outcome of one `subprocess.run(['sips', ...], check=True)` invocation:
the tool ran and exited 0, the tool exited non-zero
(`subprocess.CalledProcessError`, the only exception the source catches), or
the invocation itself failed with some other exception (e.g. `OSError` /
`FileNotFoundError` when the binary is missing). -/
inductive SipsOutcome
  | success
  | calledProcessError
  | invocationError
  deriving DecidableEq, Repr

/-- A Python exception escaping to the caller. The only uncaught exception in
the model is the invocation error of `subprocess.run`. -/
inductive PyExn
  | osError
  deriving DecidableEq, Repr

/-- Effects of one `resize_image` call: the returned boolean, the lines it
printed, and the files its successful `sips` run wrote (the output path). -/
structure ResizeResult where
  ok : Bool
  printed : List String
  wrote : List String
  deriving DecidableEq, Repr

/-- `resize_image(input_path, output_path, width, height)` from the source:
runs `sips` with `check=True`; on `CalledProcessError` prints a diagnostic and
returns `False`; any other exception propagates. -/
def resize_image (o : SipsOutcome) (input_path output_path : String)
    (_width _height : Nat) : Except PyExn ResizeResult :=
  match o with
  | .success => .ok ⟨true, [], [output_path]⟩
  | .calledProcessError =>
      .ok ⟨false, ["Failed to resize " ++ input_path ++ " to " ++ output_path], []⟩
  | .invocationError => .error .osError

/-- A Python number of this script: its value counted in half-units
(`halves / 2` is the numeric value) and whether it is a float. Every number
the script handles (the int sizes, the float `83.5`, and their products with
the int scale factors) is a non-negative multiple of one half, so this
representation is exact. -/
structure PyNum where
  halves : Nat
  isFloat : Bool
  deriving DecidableEq, Repr

/-- A Python int literal. -/
def PyNum.ofInt (n : Nat) : PyNum := ⟨2 * n, false⟩

/-- The Python float literal `83.5`. -/
def pyFloat835 : PyNum := ⟨167, true⟩

/-- Python `size_pt * scale` with an int `scale`: an int times an int is an
int, a float times an int is a float; the value multiplies. -/
def PyNum.mulNat (p : PyNum) (k : Nat) : PyNum := ⟨p.halves * k, p.isFloat⟩

/-- Python `int(x)` for the script's non-negative values: truncation towards
zero, i.e. floor, which on the half-unit representation is division by 2. -/
def pyInt (p : PyNum) : Nat := p.halves / 2

/-- Python's rendering of `size_pt` inside the f-string
`f"{size_pt}x{size_pt}"`: an int prints its decimal digits, a float with a
half-unit value prints one decimal place (`83.5` → "83.5", `167.0` →
"167.0"). -/
def pyRepr (p : PyNum) : String :=
  if p.isFloat then
    toString (p.halves / 2) ++ "." ++ (if p.halves % 2 = 1 then "5" else "0")
  else
    toString (p.halves / 2)

/-- One target specification tuple `(filename_suffix, size_pt, scale, idiom)`
from the `configs` list of the source. -/
structure Config where
  suffix : String
  size_pt : PyNum
  scale : Nat
  idiom : String
  deriving DecidableEq, Repr

/-- The fixed 18-element `configs` list of `generate_icons`. -/
def configs : List Config :=
  [ ⟨"20x20@2x", .ofInt 20, 2, "iphone"⟩,
    ⟨"20x20@3x", .ofInt 20, 3, "iphone"⟩,
    ⟨"29x29@2x", .ofInt 29, 2, "iphone"⟩,
    ⟨"29x29@3x", .ofInt 29, 3, "iphone"⟩,
    ⟨"40x40@2x", .ofInt 40, 2, "iphone"⟩,
    ⟨"40x40@3x", .ofInt 40, 3, "iphone"⟩,
    ⟨"60x60@2x", .ofInt 60, 2, "iphone"⟩,
    ⟨"60x60@3x", .ofInt 60, 3, "iphone"⟩,
    ⟨"20x20~ipad", .ofInt 20, 1, "ipad"⟩,
    ⟨"20x20@2x~ipad", .ofInt 20, 2, "ipad"⟩,
    ⟨"29x29~ipad", .ofInt 29, 1, "ipad"⟩,
    ⟨"29x29@2x~ipad", .ofInt 29, 2, "ipad"⟩,
    ⟨"40x40~ipad", .ofInt 40, 1, "ipad"⟩,
    ⟨"40x40@2x~ipad", .ofInt 40, 2, "ipad"⟩,
    ⟨"76x76~ipad", .ofInt 76, 1, "ipad"⟩,
    ⟨"76x76@2x~ipad", .ofInt 76, 2, "ipad"⟩,
    ⟨"83.5x83.5@2x~ipad", pyFloat835, 2, "ipad"⟩,
    ⟨"1024x1024", .ofInt 1024, 1, "ios-marketing"⟩ ]

/-- `base_dir` of the source. -/
def base_dir : String :=
  "/Users/ameen/Documents/ScreenTime-BMAD/ScreenTimeRewardsProject/ScreenTimeRewards/Assets.xcassets/AppIcon.appiconset"

/-- `master_icon = os.path.join(base_dir, "AppIcon.png")`. -/
def master_icon : String := base_dir ++ "/" ++ "AppIcon.png"

/-- `filename = f"Icon-{suffix}.png"`. -/
def iconFilename (c : Config) : String := "Icon-" ++ c.suffix ++ ".png"

/-- `output_path = os.path.join(base_dir, filename)`. -/
def outPath (c : Config) : String := base_dir ++ "/" ++ iconFilename c

/-- `px = int(size_pt * scale)` of the source. -/
def pxOf (c : Config) : Nat := pyInt (c.size_pt.mulNat c.scale)

/-- The `"size"` field: `f"{size_pt}x{size_pt}" if size_pt != 83.5 else
"83.5x83.5"`. Python's `!=` compares numeric values, and a value differs from
`83.5` exactly when its half-unit count differs from 167. -/
def sizeString (p : PyNum) : String :=
  if p.halves ≠ 167 then pyRepr p ++ "x" ++ pyRepr p else "83.5x83.5"

/-- JSON values, enough for the manifest. -/
inductive Json
  | str (s : String)
  | num (n : Nat)
  | arr (elems : List Json)
  | obj (fields : List (String × Json))

/-- The manifest entry dict built for a successfully resized specification. -/
def entryOf (c : Config) : Json :=
  .obj [ ("size", .str (sizeString c.size_pt)),
         ("idiom", .str c.idiom),
         ("filename", .str (iconFilename c)),
         ("scale", .str (toString c.scale ++ "x")) ]

/-- The `contents` dict: `{"images": ..., "info": {"version": 1, "author": "xcode"}}`. -/
def manifestJson (entries : List Json) : Json :=
  .obj [ ("images", .arr entries),
         ("info", .obj [("version", .num 1), ("author", .str "xcode")]) ]

/-- Path of the manifest file, `os.path.join(base_dir, "Contents.json")`. -/
def contentsPath : String := base_dir ++ "/" ++ "Contents.json"

/-- Indentation prefix at nesting level `lvl` for `json.dump(..., indent=2)`:
two spaces per level. -/
def pad (lvl : Nat) : String := String.mk (List.replicate (2 * lvl) ' ')

/-- JSON string escaping (the manifest's strings contain no control
characters, so quote and backslash are the relevant escapes). -/
def escChar (c : Char) : String :=
  if c = '\"' then "\\\"" else if c = '\\' then "\\\\" else String.singleton c

/-- A JSON string literal. -/
def jsonQuote (s : String) : String :=
  "\"" ++ String.join (s.data.map escChar) ++ "\""

mutual

/-- Serialization of a JSON value as Python's `json.dump(obj, f, indent=2)`
renders it, at nesting level `lvl`. -/
def dumpJson : Nat → Json → String
  | _, .str s => jsonQuote s
  | _, .num n => toString n
  | _, .arr [] => "[]"
  | lvl, .arr (x :: xs) => "[" ++ "\n" ++ dumpElems (lvl + 1) x xs ++ "\n" ++ pad lvl ++ "]"
  | _, .obj [] => "\x7b\x7d"
  | lvl, .obj (f :: fs) => "\x7b" ++ "\n" ++ dumpPairs (lvl + 1) f fs ++ "\n" ++ pad lvl ++ "\x7d"
termination_by _ j => sizeOf j

/-- Comma-and-newline separated array elements, each on its own indented line. -/
def dumpElems : Nat → Json → List Json → String
  | lvl, x, [] => pad lvl ++ dumpJson lvl x
  | lvl, x, y :: ys => pad lvl ++ dumpJson lvl x ++ "," ++ "\n" ++ dumpElems lvl y ys
termination_by _ x xs => sizeOf x + sizeOf xs

/-- Comma-and-newline separated object members, `"key": value` per line. -/
def dumpPairs : Nat → (String × Json) → List (String × Json) → String
  | lvl, (k, v), [] => pad lvl ++ jsonQuote k ++ ": " ++ dumpJson lvl v
  | lvl, (k, v), f :: fs =>
      pad lvl ++ jsonQuote k ++ ": " ++ dumpJson lvl v ++ "," ++ "\n" ++ dumpPairs lvl f fs
termination_by _ f fs => sizeOf f + sizeOf fs

end

/-- The bytes `json.dump(contents, f, indent=2)` writes for a manifest. -/
def manifestBytes (m : Json) : String := dumpJson 0 m

/-- Number of top-level fields of a JSON document (members of the outermost
object). -/
def Json.topFields : Json → Nat
  | .obj fs => fs.length
  | _ => 0

/-- Effects accumulated by the per-specification loop of `generate_icons`:
the `sips` calls made `(input, output, width, height)`, the printed lines, the
image files written, and the accumulated `json_images` entries. -/
structure LoopOut where
  calls : List (String × String × Nat × Nat)
  printed : List String
  wrote : List String
  entries : List Json

/-- The `for suffix, size_pt, scale, idiom in configs:` loop. `outcomes n` is
the outcome of the n-th remaining `sips` call (0 is the call for the head
configuration). -/
def processConfigs (outcomes : Nat → SipsOutcome) : List Config → Except PyExn LoopOut
  | [] => .ok ⟨[], [], [], []⟩
  | c :: rest =>
    match resize_image (outcomes 0) master_icon (outPath c) (pxOf c) (pxOf c) with
    | .error e => .error e
    | .ok r =>
      match processConfigs (fun n => outcomes (n + 1)) rest with
      | .error e => .error e
      | .ok later =>
        .ok ⟨(master_icon, outPath c, pxOf c, pxOf c) :: later.calls,
             r.printed ++ later.printed,
             r.wrote ++ later.wrote,
             (if r.ok then [entryOf c] else []) ++ later.entries⟩

/-- Effects of one whole `generate_icons()` run. -/
structure RunResult where
  printed : List String
  calls : List (String × String × Nat × Nat)
  imageWrites : List String
  manifest : Option Json
  manifestFile : Option (String × String)

/-- `generate_icons()` from the source. `masterExists` is the result of
`os.path.exists(master_icon)`; `outcomes k` is the outcome of the k-th `sips`
invocation of the run (0 = the in-place 1024×1024 normalization, 1..18 = the
per-specification resizes, in `configs` order). -/
def generate_icons (masterExists : Bool) (outcomes : Nat → SipsOutcome) :
    Except PyExn RunResult :=
  if !masterExists then
    .ok ⟨["Error: Master icon not found at " ++ master_icon], [], [], none, none⟩
  else
    match resize_image (outcomes 0) master_icon master_icon 1024 1024 with
    | .error e => .error e
    | .ok r0 =>
      match processConfigs (fun n => outcomes (n + 1)) configs with
      | .error e => .error e
      | .ok loop =>
        let contents := manifestJson loop.entries
        .ok ⟨r0.printed ++ loop.printed ++ ["Successfully generated icons and Contents.json"],
             (master_icon, master_icon, 1024, 1024) :: loop.calls,
             r0.wrote ++ loop.wrote,
             some contents,
             some (contentsPath, manifestBytes contents)⟩

/-- Lines printed by the in-place normalization step, as a function of its
`sips` outcome (assuming it is not an invocation error). -/
def normPrinted (o : SipsOutcome) : List String :=
  if o = .success then [] else ["Failed to resize " ++ master_icon ++ " to " ++ master_icon]

/-- Files written by the in-place normalization step. -/
def normWrote (o : SipsOutcome) : List String :=
  if o = .success then [master_icon] else []

/-- The lines printed by the loop, configuration by configuration. -/
def printedList (outcomes : Nat → SipsOutcome) : List Config → List String
  | [] => []
  | c :: rest =>
    (if outcomes 0 = .success then []
     else ["Failed to resize " ++ master_icon ++ " to " ++ outPath c]) ++
      printedList (fun n => outcomes (n + 1)) rest

/-- The image files written by the loop, configuration by configuration. -/
def wroteList (outcomes : Nat → SipsOutcome) : List Config → List String
  | [] => []
  | c :: rest =>
    (if outcomes 0 = .success then [outPath c] else []) ++
      wroteList (fun n => outcomes (n + 1)) rest

/-- The manifest entries accumulated by the loop, configuration by
configuration. -/
def entriesList (outcomes : Nat → SipsOutcome) : List Config → List Json
  | [] => []
  | c :: rest =>
    (if outcomes 0 = .success then [entryOf c] else []) ++
      entriesList (fun n => outcomes (n + 1)) rest

/-- The entries of the specifications whose resize succeeded, in specification
order: the specification list paired with the call indices `k, k+1, ...`,
filtered by success of the indexed call, and mapped to entries. -/
def selectedFrom (outcomes : Nat → SipsOutcome) (k : Nat) (cs : List Config) : List Json :=
  (((List.range' k cs.length).zip cs).filter
      (fun p => decide (outcomes p.1 = SipsOutcome.success))).map (fun p => entryOf p.2)

/-- The per-specification entries of a `generate_icons` run: call indices
1..18 paired with `configs`. -/
def selectedImages (outcomes : Nat → SipsOutcome) : List Json :=
  selectedFrom outcomes 1 configs

/-- The number of per-specification resizes that failed in a run. -/
def failCount (outcomes : Nat → SipsOutcome) : Nat :=
  ((List.range' 1 configs.length).filter
      (fun k => decide (outcomes k ≠ SipsOutcome.success))).length

/-- The `"size"` member of a manifest entry. -/
def sizeField : Json → Option Json
  | .obj fs => fs.lookup "size"
  | _ => none

theorem processConfigs_noInvoc :
    ∀ (cs : List Config) (outcomes : Nat → SipsOutcome),
      (∀ k, outcomes k ≠ SipsOutcome.invocationError) →
      processConfigs outcomes cs =
        .ok ⟨cs.map (fun c => (master_icon, outPath c, pxOf c, pxOf c)),
             printedList outcomes cs, wroteList outcomes cs, entriesList outcomes cs⟩ := by
  intro cs
  induction cs with
  | nil => intro outcomes _; rfl
  | cons c rest ih =>
    intro outcomes h
    have h' : ∀ k, outcomes (k + 1) ≠ SipsOutcome.invocationError := fun k => h (k + 1)
    cases h0 : outcomes 0 with
    | success =>
      simp [processConfigs, resize_image, h0, ih _ h', entriesList, printedList, wroteList]
    | calledProcessError =>
      simp [processConfigs, resize_image, h0, ih _ h', entriesList, printedList, wroteList]
    | invocationError => exact absurd h0 (h 0)

set_option maxRecDepth 4000 in
theorem generate_icons_noInvoc (outcomes : Nat → SipsOutcome)
    (h : ∀ k, outcomes k ≠ SipsOutcome.invocationError) :
    generate_icons true outcomes =
      .ok ⟨normPrinted (outcomes 0) ++ printedList (fun n => outcomes (n + 1)) configs ++
             ["Successfully generated icons and Contents.json"],
           (master_icon, master_icon, 1024, 1024) ::
             configs.map (fun c => (master_icon, outPath c, pxOf c, pxOf c)),
           normWrote (outcomes 0) ++ wroteList (fun n => outcomes (n + 1)) configs,
           some (manifestJson (entriesList (fun n => outcomes (n + 1)) configs)),
           some (contentsPath,
                 manifestBytes (manifestJson (entriesList (fun n => outcomes (n + 1)) configs)))⟩ := by
  have h' : ∀ k, outcomes (k + 1) ≠ SipsOutcome.invocationError := fun k => h (k + 1)
  have hp := processConfigs_noInvoc configs (fun n => outcomes (n + 1)) h'
  cases h0 : outcomes 0 with
  | success =>
    unfold generate_icons
    rw [h0, hp]
    rfl
  | calledProcessError =>
    unfold generate_icons
    rw [h0, hp]
    rfl
  | invocationError => exact absurd h0 (h 0)

theorem entriesList_eq_selectedFrom :
    ∀ (cs : List Config) (g : Nat → SipsOutcome) (k : Nat),
      entriesList (fun n => g (n + k)) cs = selectedFrom g k cs := by
  intro cs
  induction cs with
  | nil => intro g k; rfl
  | cons c rest ih =>
    intro g k
    have shift : (fun n => g (n + 1 + k)) = (fun n => g (n + (k + 1))) :=
      funext fun n => congrArg g (by omega)
    have tail := ih g (k + 1)
    simp only [entriesList, selectedFrom, List.length_cons, List.range'_succ,
               List.zip_cons_cons, List.filter_cons, Nat.zero_add]
    rw [shift, tail]
    by_cases hk : g k = SipsOutcome.success
    · simp [hk, selectedFrom]
    · simp [hk, selectedFrom]

theorem zip_filter_fst_length :
    ∀ (l1 : List Nat) (l2 : List Config) (q : Nat → Bool), l1.length = l2.length →
      ((l1.zip l2).filter (fun p => q p.1)).length = (l1.filter q).length := by
  intro l1
  induction l1 with
  | nil => intro l2 q _; simp
  | cons a l1 ih =>
    intro l2 q hlen
    cases l2 with
    | nil => simp at hlen
    | cons b l2 =>
      have := ih l2 q (by simpa using hlen)
      by_cases hq : q a
      · simp [List.filter_cons, hq, this]
      · simp [List.filter_cons, hq, this]

theorem filter_length_split :
    ∀ (l : List Nat) (q : Nat → Bool),
      (l.filter q).length + (l.filter (fun a => !(q a))).length = l.length := by
  intro l q
  rw [← List.countP_eq_length_filter, ← List.countP_eq_length_filter]
  have := (List.length_eq_countP_add_countP q (l := l)).symm
  simpa using this

theorem selectedImages_length (outcomes : Nat → SipsOutcome) :
    (selectedImages outcomes).length = 18 - failCount outcomes := by
  unfold selectedImages selectedFrom failCount
  rw [List.length_map]
  rw [zip_filter_fst_length (List.range' 1 configs.length) configs
        (fun k => decide (outcomes k = SipsOutcome.success)) (by rw [List.length_range'])]
  have hnot : (fun k => decide (outcomes k ≠ SipsOutcome.success)) =
      (fun k => !(decide (outcomes k = SipsOutcome.success))) :=
    funext fun k => decide_not
  rw [hnot]
  have hsplit := filter_length_split (List.range' 1 configs.length)
      (fun k => decide (outcomes k = SipsOutcome.success))
  have hlen : (List.range' 1 configs.length).length = 18 := by
    rw [List.length_range']; rfl
  omega

/-- The environment in which every `sips` invocation succeeds. -/
def allSuccess : Nat → SipsOutcome := fun _ => .success

/-- The environment in which every `sips` invocation exits non-zero. -/
def allFailure : Nat → SipsOutcome := fun _ => .calledProcessError

/-- The environment in which exactly one per-specification resize (call 4,
the fourth specification, "29x29@3x") exits non-zero and everything else
succeeds. -/
def oneFailure : Nat → SipsOutcome :=
  fun k => if k = 4 then .calledProcessError else .success

/-- The environment in which only the in-place master normalization (call 0)
exits non-zero; all 18 per-specification resizes succeed. -/
def normFailure : Nat → SipsOutcome :=
  fun k => if k = 0 then .calledProcessError else .success

theorem oneFailure_noInvoc : ∀ k, oneFailure k ≠ SipsOutcome.invocationError := by
  intro k h
  unfold oneFailure at h
  by_cases hk : k = 4
  · rw [if_pos hk] at h; exact SipsOutcome.noConfusion h
  · rw [if_neg hk] at h; exact SipsOutcome.noConfusion h

/-- C1 counterexample: in a run where the master exists and every one of the
18 per-specification resize invocations succeeds but the preliminary in-place
normalization (a 19th resize invocation, not among the 18) exits non-zero,
the 18 derivative files are written yet the normalized master is not among
the files written — the claim's conclusion "plus the normalized master"
fails although its hypothesis holds. -/
theorem c1_counterexample :
    (generate_icons true normFailure).map (fun r => r.imageWrites) =
      Except.ok (configs.map outPath) ∧
    (configs.map outPath).contains master_icon = false := by
  constructor
  · rfl
  · decide

/-- C1 (amended: every resize invocation of the run — the in-place master
normalization as well as the 18 per-specification resizes — succeeds): the
manifest holds exactly 18 entries, one per specification in specification
order, 18 pairwise distinct derivative files are written plus the normalized
master, and the manifest file is written. -/
theorem c1_manifest_complete (outcomes : Nat → SipsOutcome)
    (h : ∀ k, outcomes k = SipsOutcome.success) :
    (generate_icons true outcomes).map (fun r => r.manifest) =
      Except.ok (some (manifestJson (configs.map entryOf))) ∧
    (configs.map entryOf).length = 18 ∧
    (generate_icons true outcomes).map (fun r => r.imageWrites) =
      Except.ok (master_icon :: configs.map outPath) ∧
    (configs.map outPath).length = 18 ∧
    (configs.map outPath).Nodup ∧
    (generate_icons true outcomes).map (fun r => r.manifestFile.isSome) = Except.ok true := by
  have e : outcomes = allSuccess := funext h
  subst e
  exact ⟨rfl, rfl, rfl, rfl, by decide, rfl⟩

/-- C1 witness: the amended claim evaluated in the all-success environment. -/
theorem c1_witness :
    (generate_icons true allSuccess).map (fun r => r.manifest) =
      Except.ok (some (manifestJson (configs.map entryOf))) ∧
    (configs.map entryOf).length = 18 ∧
    (generate_icons true allSuccess).map (fun r => r.imageWrites) =
      Except.ok (master_icon :: configs.map outPath) ∧
    (configs.map outPath).length = 18 ∧
    (configs.map outPath).Nodup ∧
    (generate_icons true allSuccess).map (fun r => r.manifestFile.isSome) = Except.ok true :=
  c1_manifest_complete allSuccess (fun _ => rfl)

/-- C2: for every pattern of per-specification resize outcomes (none of the
19 `sips` invocations raising, so each resize returns its boolean), the
manifest's entry list is exactly the specification list filtered to the
specifications whose resize call succeeded, in specification order; its
length is 18 minus the number of failed per-specification resizes; all 19
resize calls are still made (processing continues past failures); and the
manifest file is still written. -/
theorem c2_partial_failure (outcomes : Nat → SipsOutcome)
    (h : ∀ k, outcomes k ≠ SipsOutcome.invocationError) :
    (generate_icons true outcomes).map (fun r => r.manifest) =
      Except.ok (some (manifestJson (selectedImages outcomes))) ∧
    (selectedImages outcomes).length = 18 - failCount outcomes ∧
    (generate_icons true outcomes).map (fun r => r.calls.length) = Except.ok 19 ∧
    (generate_icons true outcomes).map (fun r => r.manifestFile.isSome) = Except.ok true := by
  have hg := generate_icons_noInvoc outcomes h
  have he : entriesList (fun n => outcomes (n + 1)) configs = selectedImages outcomes :=
    entriesList_eq_selectedFrom configs outcomes 1
  refine ⟨?_, selectedImages_length outcomes, ?_, ?_⟩
  · rw [hg, ← he]; rfl
  · rw [hg]; rfl
  · rw [hg]; rfl

/-- C2 witness: the claim evaluated in the environment where exactly the
fourth specification's resize fails; the manifest then has 17 entries,
omitting precisely that specification's entry. -/
theorem c2_witness :
    ((generate_icons true oneFailure).map (fun r => r.manifest) =
      Except.ok (some (manifestJson (selectedImages oneFailure))) ∧
    (selectedImages oneFailure).length = 18 - failCount oneFailure ∧
    (generate_icons true oneFailure).map (fun r => r.calls.length) = Except.ok 19 ∧
    (generate_icons true oneFailure).map (fun r => r.manifestFile.isSome) = Except.ok true) ∧
    failCount oneFailure = 1 ∧
    (selectedImages oneFailure).length = 17 ∧
    selectedImages oneFailure =
      (configs.filter (fun c => c.suffix ≠ "29x29@3x")).map entryOf :=
  ⟨c2_partial_failure oneFailure oneFailure_noInvoc, by decide, by decide, rfl⟩

/-- C3 counterexample: when the `sips` invocation itself fails (outcome
invocationError, e.g. a missing binary raising OSError — the source catches
only subprocess.CalledProcessError), `resize_image` does not return the
boolean False with a diagnostic: the exception propagates to its caller,
contradicting "never raises an exception to its caller". -/
theorem c3_counterexample :
    resize_image SipsOutcome.invocationError "a.png" "b.png" 7 7 =
      Except.error PyExn.osError ∧
    (resize_image SipsOutcome.invocationError "a.png" "b.png" 7 7).isOk = false :=
  ⟨rfl, rfl⟩

/-- C3 (amended: the no-raise guarantee holds for non-zero tool exit only):
for every input, on non-zero exit status `resize_image` returns False,
prints one human-readable diagnostic naming the input path and the output
path, and raises nothing; on success it returns True; an invocation error
(any exception other than CalledProcessError) is not caught and propagates
to the caller. -/
theorem c3_resize_reporting (input_path output_path : String) (w h : Nat) :
    resize_image SipsOutcome.calledProcessError input_path output_path w h =
      Except.ok ⟨false, ["Failed to resize " ++ input_path ++ " to " ++ output_path], []⟩ ∧
    resize_image SipsOutcome.success input_path output_path w h =
      Except.ok ⟨true, [], [output_path]⟩ ∧
    resize_image SipsOutcome.invocationError input_path output_path w h =
      Except.error PyExn.osError :=
  ⟨rfl, rfl, rfl⟩

/-- C4: if the master image does not exist at its fixed path, generate_icons
prints the diagnostic and returns early: no resize call is made, no image
file is written, no manifest file is written, and no exception propagates to
the caller (the run value is `Except.ok`). -/
theorem c4_missing_master (outcomes : Nat → SipsOutcome) :
    generate_icons false outcomes =
      Except.ok ⟨["Error: Master icon not found at " ++ master_icon], [], [], none, none⟩ :=
  rfl

/-- C5: for every run in which no resize invocation raises, each of the 18
per-specification resize calls passes `int(size_pt * scale)` as both the
width and the height; the truncation-towards-zero semantics is stated in
half-units (`2 * px ≤ halves * scale < 2 * px + 2` says exactly that `px` is
`size_pt * scale` truncated), and in particular the specification
(83.5, 2, "ipad") resizes to 167×167 and (20, 3, "iphone") to 60×60. -/
theorem c5_pixel_dimensions (outcomes : Nat → SipsOutcome)
    (h : ∀ k, outcomes k ≠ SipsOutcome.invocationError) :
    (generate_icons true outcomes).map (fun r => r.calls) =
      Except.ok ((master_icon, master_icon, 1024, 1024) ::
        configs.map (fun c => (master_icon, outPath c, pxOf c, pxOf c))) ∧
    configs.all (fun c => decide (2 * pxOf c ≤ c.size_pt.halves * c.scale) &&
      decide (c.size_pt.halves * c.scale < 2 * pxOf c + 2)) = true ∧
    pxOf ⟨"83.5x83.5@2x~ipad", pyFloat835, 2, "ipad"⟩ = 167 ∧
    pxOf ⟨"20x20@3x", PyNum.ofInt 20, 3, "iphone"⟩ = 60 := by
  refine ⟨?_, by decide, by decide, by decide⟩
  rw [generate_icons_noInvoc outcomes h]
  rfl

/-- C5 witness: the claim evaluated in the all-success environment. -/
theorem c5_witness :
    (generate_icons true allSuccess).map (fun r => r.calls) =
      Except.ok ((master_icon, master_icon, 1024, 1024) ::
        configs.map (fun c => (master_icon, outPath c, pxOf c, pxOf c))) ∧
    configs.all (fun c => decide (2 * pxOf c ≤ c.size_pt.halves * c.scale) &&
      decide (c.size_pt.halves * c.scale < 2 * pxOf c + 2)) = true ∧
    pxOf ⟨"83.5x83.5@2x~ipad", pyFloat835, 2, "ipad"⟩ = 167 ∧
    pxOf ⟨"20x20@3x", PyNum.ofInt 20, 3, "iphone"⟩ = 60 :=
  c5_pixel_dimensions allSuccess (fun _ h => SipsOutcome.noConfusion h)

/-- C6: manifest size-string formatting, checked over all 18 specifications
in the all-success run: the half-integer logical size 83.5 yields
"83.5x83.5" and every integer logical size yields the integer with no
decimal part, width equal to height. -/
theorem c6_size_strings :
    (generate_icons true allSuccess).map (fun r => r.manifest) =
      Except.ok (some (manifestJson (configs.map entryOf))) ∧
    (configs.map entryOf).map sizeField =
      (["20x20", "20x20", "29x29", "29x29", "40x40", "40x40", "60x60", "60x60",
        "20x20", "20x20", "29x29", "29x29", "40x40", "40x40", "76x76", "76x76",
        "83.5x83.5", "1024x1024"].map (fun s => some (Json.str s))) :=
  ⟨rfl, rfl⟩

/-- C7 counterexample: the manifest written by generate_icons has exactly two
top-level fields ("images" and "info"), not three as the claim states. -/
theorem c7_counterexample :
    (generate_icons true allSuccess).map (fun r => r.manifest.map Json.topFields) =
      Except.ok (some 2) ∧
    decide ((some 2 : Option Nat) = some 3) = false :=
  ⟨rfl, by decide⟩

/-- C7 (amended: two top-level fields, not three): whenever no resize raises,
the manifest written is a document with exactly two top-level fields — the
ordered entry list under "images" and the fixed metadata object
info = version 1 / author "xcode" — serialized by the 2-space-indent JSON
dump to the fixed path Contents.json inside the master image's directory
(opened in "w" mode, so any existing file there is overwritten). -/
theorem c7_manifest_document (outcomes : Nat → SipsOutcome)
    (h : ∀ k, outcomes k ≠ SipsOutcome.invocationError) :
    (generate_icons true outcomes).map (fun r => r.manifest) =
      Except.ok (some (Json.obj [("images", Json.arr (selectedImages outcomes)),
        ("info", Json.obj [("version", Json.num 1), ("author", Json.str "xcode")])])) ∧
    (generate_icons true outcomes).map (fun r => r.manifest.map Json.topFields) =
      Except.ok (some 2) ∧
    (generate_icons true outcomes).map (fun r => r.manifestFile) =
      Except.ok (some (contentsPath, manifestBytes (manifestJson (selectedImages outcomes)))) ∧
    contentsPath = base_dir ++ "/" ++ "Contents.json" := by
  have hg := generate_icons_noInvoc outcomes h
  have he : entriesList (fun n => outcomes (n + 1)) configs = selectedImages outcomes :=
    entriesList_eq_selectedFrom configs outcomes 1
  refine ⟨?_, ?_, ?_, rfl⟩
  · rw [hg, ← he]; rfl
  · rw [hg]; rfl
  · rw [hg, ← he]; rfl

/-- C7 witness: the amended claim evaluated in the all-success environment. -/
theorem c7_witness :
    (generate_icons true allSuccess).map (fun r => r.manifest) =
      Except.ok (some (Json.obj [("images", Json.arr (selectedImages allSuccess)),
        ("info", Json.obj [("version", Json.num 1), ("author", Json.str "xcode")])])) ∧
    (generate_icons true allSuccess).map (fun r => r.manifest.map Json.topFields) =
      Except.ok (some 2) ∧
    (generate_icons true allSuccess).map (fun r => r.manifestFile) =
      Except.ok (some (contentsPath, manifestBytes (manifestJson (selectedImages allSuccess)))) ∧
    contentsPath = base_dir ++ "/" ++ "Contents.json" :=
  c7_manifest_document allSuccess (fun _ h => SipsOutcome.noConfusion h)

/-- C8: two runs with the master present and every resize succeeding write
byte-identical manifest content, with the same entry order and field values
(the manifest depends only on the fixed specification list and the resize
outcomes, never on the image bytes). -/
theorem c8_idempotent (o1 o2 : Nat → SipsOutcome)
    (h1 : ∀ k, o1 k = SipsOutcome.success) (h2 : ∀ k, o2 k = SipsOutcome.success) :
    (generate_icons true o1).map (fun r => r.manifestFile) =
      (generate_icons true o2).map (fun r => r.manifestFile) ∧
    (generate_icons true o1).map (fun r => r.manifest) =
      (generate_icons true o2).map (fun r => r.manifest) := by
  have e1 : o1 = allSuccess := funext h1
  have e2 : o2 = allSuccess := funext h2
  subst e1; subst e2
  exact ⟨rfl, rfl⟩

/-- C8 witness: the claim evaluated on two all-success runs. -/
theorem c8_witness :
    (generate_icons true allSuccess).map (fun r => r.manifestFile) =
      (generate_icons true allSuccess).map (fun r => r.manifestFile) ∧
    (generate_icons true allSuccess).map (fun r => r.manifest) =
      (generate_icons true allSuccess).map (fun r => r.manifest) :=
  c8_idempotent allSuccess allSuccess (fun _ => rfl) (fun _ => rfl)

/-- C9: if the master exists but every resize invocation exits non-zero,
generate_icons still writes the manifest file with an empty "images" list and
the fixed "info" object, and still prints the final success diagnostic as its
last line. -/
theorem c9_all_fail_empty_manifest :
    (generate_icons true allFailure).map (fun r => r.manifest) =
      Except.ok (some (Json.obj [("images", Json.arr []),
        ("info", Json.obj [("version", Json.num 1), ("author", Json.str "xcode")])])) ∧
    (generate_icons true allFailure).map (fun r => r.manifestFile) =
      Except.ok (some (contentsPath, manifestBytes (manifestJson []))) ∧
    (generate_icons true allFailure).map (fun r => r.printed.getLast?) =
      Except.ok (some "Successfully generated icons and Contents.json") :=
  ⟨rfl, rfl, rfl⟩

/-- C10: the 18 destination filenames Icon-(suffix).png are pairwise distinct
and none equals the master filename AppIcon.png, hence the 18 output paths
are pairwise distinct and distinct from the master path: within one
all-success run the files written are the master (normalization) followed by
the 18 distinct derivative paths. -/
theorem c10_distinct_paths :
    (configs.map iconFilename).Nodup ∧
    (configs.map iconFilename).contains "AppIcon.png" = false ∧
    (configs.map outPath).Nodup ∧
    (configs.map outPath).contains master_icon = false ∧
    (generate_icons true allSuccess).map (fun r => r.imageWrites) =
      Except.ok (master_icon :: configs.map outPath) :=
  ⟨by decide, by decide, by decide, by decide, rfl⟩

/-- C3 witness: the amended claim evaluated at a concrete input. -/
theorem c3_witness :
    resize_image SipsOutcome.calledProcessError "in.png" "out.png" 3 4 =
      Except.ok ⟨false, ["Failed to resize " ++ "in.png" ++ " to " ++ "out.png"], []⟩ ∧
    resize_image SipsOutcome.success "in.png" "out.png" 3 4 =
      Except.ok ⟨true, [], ["out.png"]⟩ ∧
    resize_image SipsOutcome.invocationError "in.png" "out.png" 3 4 =
      Except.error PyExn.osError :=
  c3_resize_reporting "in.png" "out.png" 3 4

/-- C4 witness: the claim evaluated in a concrete environment. -/
theorem c4_witness :
    generate_icons false allSuccess =
      Except.ok ⟨["Error: Master icon not found at " ++ master_icon], [], [], none, none⟩ :=
  c4_missing_master allSuccess
